import Mathlib

/-!
# Verification of `klippy/extras/gcode_encoder.py`

Shallow embedding of the `GCodeEncoder` class: a rotary-encoder rate
detector, a click/long-click classifier driven by a reactor timer, and a
FIFO gcode dispatch queue.  Python floats (event times, durations) are
modelled as rationals; the reactor timer waketime is either a concrete
time or the `NEVER` sentinel.  External collaborators are instrumented:
the state carries ghost logs of the keys passed to `key_event`, the
number of `reactor.register_callback` calls, the rendered scripts passed
to `gcode.run_script`, and the number of `logging.exception` calls.
-/

namespace GcodeEnc

/-- Source constant `LONG_CLICK_DURATION = 1.500`. -/
def LONG_CLICK_DURATION : ℚ := 1.5

/-- Source constant `DOUBLE_CLICK_THRESHOLD = 0.400` (unused by live code). -/
def DOUBLE_CLICK_THRESHOLD : ℚ := 0.4

/-- A reactor timer waketime: a concrete absolute time, or the
`reactor.NEVER` sentinel meaning the timer will not fire. -/
inductive Waketime
  | NEVER
  | wake (t : ℚ)
deriving DecidableEq, Repr

/-- The `self._scripts` dictionary built in `__init__`.  Modelled from the
spec: the external template store (`gcode_macro.load_template`, not under
src/) is modelled by identifying a template with its script text, so the
empty template is the empty string (the spec: empty templates are valid
and mean no action).  Note the release template is stored under the key
`release_template`, not `release`. -/
structure Scripts where
  click : String
  double_click : String
  long_click : String
  release_template : String
  up : String
  fast_up : String
  down : String
  fast_down : String
deriving DecidableEq, Repr

/-- Dictionary lookup `self._scripts[key]`: `none` models a `KeyError`. -/
def Scripts.get (sc : Scripts) (key : String) : Option String :=
  if key = "click" then some sc.click
  else if key = "double_click" then some sc.double_click
  else if key = "long_click" then some sc.long_click
  else if key = "release_template" then some sc.release_template
  else if key = "up" then some sc.up
  else if key = "fast_up" then some sc.fast_up
  else if key = "down" then some sc.down
  else if key = "fast_down" then some sc.fast_down
  else none

/-- The mutable state of a `GCodeEncoder` instance, plus instrumentation of
its calls to external collaborators.  The first block mirrors the Python
attributes; the ghost fields record externally observable effects:
`sched_calls` counts `reactor.register_callback` invocations and
`drain_pending` whether a registered drain callback has not yet run,
`emitted` logs the `key` arguments of `key_event` calls, `executed` logs
the rendered scripts passed to `gcode.run_script`, and `logged` counts
`logging.exception` calls. -/
structure GCodeEncoder where
  encoder_fast_rate : ℚ
  last_encoder_cw_eventtime : ℚ
  last_encoder_ccw_eventtime : ℚ
  is_short_click : Bool
  click_timer : Waketime
  gcode_queue : List String
  scripts : Scripts
  sched_calls : ℕ
  drain_pending : Bool
  emitted : List String
  executed : List String
  logged : ℕ
deriving DecidableEq, Repr

/-- The state right after `__init__` (for a config with no errors): both
encoder timestamps start at 0, `is_short_click` is false, the click timer
is registered with no waketime (`reactor.register_timer` defaults to
`NEVER`), and the queue is empty. -/
def initState (sc : Scripts) (rate : ℚ) : GCodeEncoder where
  encoder_fast_rate := rate
  last_encoder_cw_eventtime := 0
  last_encoder_ccw_eventtime := 0
  is_short_click := false
  click_timer := .NEVER
  gcode_queue := []
  scripts := sc
  sched_calls := 0
  drain_pending := false
  emitted := []
  executed := []
  logged := 0

/-- A scripts table whose eight templates are all empty. -/
def emptyScripts : Scripts where
  click := ""
  double_click := ""
  long_click := ""
  release_template := ""
  up := ""
  fast_up := ""
  down := ""
  fast_down := ""

/-- Embeds `GCodeEncoder.queue_gcode`: return early on an empty script; if the
queue was empty, `reactor.register_callback(self.dispatch_gcode)`
(instrumented by `sched_calls`/`drain_pending`); then append. -/
def queue_gcode (s : GCodeEncoder) (script : String) : GCodeEncoder :=
  if script = "" then s
  else
    let s1 := if s.gcode_queue = []
      then { s with sched_calls := s.sched_calls + 1, drain_pending := true }
      else s
    { s1 with gcode_queue := s1.gcode_queue ++ [script] }

/-- Embeds `GCodeEncoder.key_event`: string-keyed dispatch.  The source has an
`if key == "click"` statement followed by a separate
`if key == "double_click" / elif ...` chain; both are translated in
sequence.  The `key` argument is logged in `emitted`. -/
def key_event (s0 : GCodeEncoder) (key : String) (eventtime : ℚ) : GCodeEncoder :=
  let s := { s0 with emitted := s0.emitted ++ [key] }
  let s1 := if key = "click" then queue_gcode s s.scripts.click else s
  if key = "double_click" then queue_gcode s1 s1.scripts.double_click
  else if key = "long_click" then queue_gcode s1 s1.scripts.long_click
  else if key = "up" then queue_gcode s1 s1.scripts.up
  else if key = "fast_up" then queue_gcode s1 s1.scripts.fast_up
  else if key = "down" then queue_gcode s1 s1.scripts.down
  else if key = "fast_down" then queue_gcode s1 s1.scripts.fast_down
  else s1

/-- Embeds `GCodeEncoder.encoder_cw_callback`. -/
def encoder_cw_callback (s : GCodeEncoder) (eventtime : ℚ) : GCodeEncoder :=
  let fast_rate := eventtime - s.last_encoder_cw_eventtime ≤ s.encoder_fast_rate
  let s1 := { s with last_encoder_cw_eventtime := eventtime }
  if fast_rate then key_event s1 "fast_up" eventtime
  else key_event s1 "up" eventtime

/-- Embeds `GCodeEncoder.encoder_ccw_callback`. -/
def encoder_ccw_callback (s : GCodeEncoder) (eventtime : ℚ) : GCodeEncoder :=
  let fast_rate := eventtime - s.last_encoder_ccw_eventtime ≤ s.encoder_fast_rate
  let s1 := { s with last_encoder_ccw_eventtime := eventtime }
  if fast_rate then key_event s1 "fast_down" eventtime
  else key_event s1 "down" eventtime

/-- Embeds `GCodeEncoder.long_click_event` (the click-timer callback): clear
`is_short_click`, emit `long_click`, and return `reactor.NEVER`, which the
reactor stores as the timer's new waketime. -/
def long_click_event (s : GCodeEncoder) (eventtime : ℚ) : GCodeEncoder :=
  let s1 := { s with is_short_click := false }
  let s2 := key_event s1 "long_click" eventtime
  { s2 with click_timer := .NEVER }

/-- Embeds `GCodeEncoder.click_callback`: on a press edge set `is_short_click`
and arm the long-press timer at `eventtime + LONG_CLICK_DURATION`; on a
release edge, if `is_short_click` still holds, cancel the timer (set it
to `NEVER`) and emit `click`; otherwise do nothing. -/
def click_callback (s : GCodeEncoder) (eventtime : ℚ) (state : Bool) : GCodeEncoder :=
  if state then
    { s with is_short_click := true,
             click_timer := .wake (eventtime + LONG_CLICK_DURATION) }
  else if s.is_short_click then
    key_event { s with click_timer := .NEVER } "click" eventtime
  else s

/-- One iteration plus the rest of the `while self.gcode_queue:` loop of
`GCodeEncoder.dispatch_gcode`, recursing on the queue contents: take the
head, render it and pass it to `gcode.run_script` inside `try/except`
(`run_ok` tells whether run succeeds on a rendered script; a failure is
one `logging.exception` call), then pop the head.  Total: the `except`
clause catches every exception, so no exception escapes the loop. -/
def dispatch_go (run_ok : String → Bool) (render : String → String) :
    List String → GCodeEncoder → GCodeEncoder
  | [], s => s
  | script :: rest, s =>
    dispatch_go run_ok render rest
      { s with gcode_queue := rest,
               executed := s.executed ++ [render script],
               logged := s.logged + (if run_ok (render script) then 0 else 1) }

/-- Embeds `GCodeEncoder.dispatch_gcode`: the drain task.  Its invocation by the
reactor consumes the pending registered callback (`drain_pending` becomes
false), then the loop drains the queue. -/
def dispatch_gcode (run_ok : String → Bool) (render : String → String)
    (s : GCodeEncoder) : GCodeEncoder :=
  dispatch_go run_ok render s.gcode_queue { s with drain_pending := false }

/-- A sequence of `queue_gcode` calls, in order. -/
def enqueueAll (s : GCodeEncoder) : List String → GCodeEncoder
  | [] => s
  | x :: xs => enqueueAll (queue_gcode s x) xs

/-- Reactor semantics for the button: process timestamped button edges
(`true` = press, `false` = release) in order; before delivering an edge at
time `t`, if the click timer's waketime `u` has arrived (`u ≤ t`), the
reactor runs `long_click_event` at time `u` first.  Edges and timer
callbacks all run on the single reactor dispatch thread, so the
interleaving is exactly this sequential one. -/
def runEdges : List (ℚ × Bool) → GCodeEncoder → GCodeEncoder
  | [], s => s
  | (t, st) :: rest, s =>
    match s.click_timer with
    | .NEVER => runEdges rest (click_callback s t st)
    | .wake u =>
      if u ≤ t then runEdges rest (click_callback (long_click_event s u) t st)
      else runEdges rest (click_callback s t st)

/-- One invocation of a live entry point of the component: an encoder
detent callback, a button edge callback, the click-timer firing, or the
drain task running. -/
inductive Invocation
  | cw (t : ℚ)
  | ccw (t : ℚ)
  | button (t : ℚ) (state : Bool)
  | fire (t : ℚ)
  | drain

/-- Dispatch one `Invocation` to the corresponding handler. -/
def stepInv (run_ok : String → Bool) (render : String → String)
    (s : GCodeEncoder) : Invocation → GCodeEncoder
  | .cw t => encoder_cw_callback s t
  | .ccw t => encoder_ccw_callback s t
  | .button t st => click_callback s t st
  | .fire t => long_click_event s t
  | .drain => dispatch_gcode run_ok render s

/-- Run a sequence of live invocations. -/
def runInv (run_ok : String → Bool) (render : String → String) :
    List Invocation → GCodeEncoder → GCodeEncoder
  | [], s => s
  | i :: rest, s => runInv run_ok render rest (stepInv run_ok render s i)

/-- Python `str.split(',')` on the character list: splits at every comma,
keeping empty tokens, so `""` gives one empty token, `"a,b"` gives two,
and `"a,,b"` gives three. -/
def splitComma : List Char → List (List Char)
  | [] => [[]]
  | c :: rest =>
    if c = ',' then [] :: splitComma rest
    else
      match splitComma rest with
      | [] => [[c]]
      | g :: gs => (c :: g) :: gs

/-- Python `str.strip()`: drop whitespace from both ends. -/
def pyStrip (cs : List Char) : List Char :=
  ((cs.dropWhile Char.isWhitespace).reverse.dropWhile Char.isWhitespace).reverse

/-- Python `str.split(',')` lifted to `String`. -/
def pySplitComma (s : String) : List String :=
  (splitComma s.data).map String.mk

/-- The `encoder_pins` handling in `__init__`: absent option means no
encoder is registered; otherwise `pin1, pin2 = encoder_pins.split(',')`
raises unless the split yields exactly two tokens, the bare `except`
converts that to `config.error("Unable to parse encoder_pins")`, and on
success the encoder is registered with the two stripped
(`pin1.strip()`, `pin2.strip()`) pin names. -/
def init_encoder_pins (encoder_pins : Option String) :
    Except String (Option (String × String)) :=
  match encoder_pins with
  | none => .ok none
  | some ep =>
    match pySplitComma ep with
    | [p1, p2] => .ok (some (String.mk (pyStrip p1.data), String.mk (pyStrip p2.data)))
    | _ => .error "Unable to parse encoder_pins"

/-- The seven event keys `key_event` can dispatch on. -/
def eventKeys : List String :=
  ["click", "double_click", "long_click", "up", "fast_up", "down", "fast_down"]

/-- The six event keys the live code paths actually pass to `key_event`. -/
def liveKeys : List String :=
  ["click", "long_click", "up", "fast_up", "down", "fast_down"]

/-! ## Basic lemmas about `queue_gcode` and `key_event` -/

/-- Closed form of `queue_gcode`. -/
theorem queue_gcode_eq (s : GCodeEncoder) (x : String) :
    queue_gcode s x =
      if x = "" then s
      else if s.gcode_queue = [] then
        { s with sched_calls := s.sched_calls + 1, drain_pending := true,
                 gcode_queue := [x] }
      else { s with gcode_queue := s.gcode_queue ++ [x] } := by
  unfold queue_gcode
  split
  · rfl
  · split <;> simp_all

theorem queue_gcode_emitted (s : GCodeEncoder) (x : String) :
    (queue_gcode s x).emitted = s.emitted := by
  rw [queue_gcode_eq]; split
  · rfl
  · split <;> rfl

theorem queue_gcode_click_timer (s : GCodeEncoder) (x : String) :
    (queue_gcode s x).click_timer = s.click_timer := by
  rw [queue_gcode_eq]; split
  · rfl
  · split <;> rfl

theorem queue_gcode_is_short_click (s : GCodeEncoder) (x : String) :
    (queue_gcode s x).is_short_click = s.is_short_click := by
  rw [queue_gcode_eq]; split
  · rfl
  · split <;> rfl

theorem queue_gcode_executed (s : GCodeEncoder) (x : String) :
    (queue_gcode s x).executed = s.executed := by
  rw [queue_gcode_eq]; split
  · rfl
  · split <;> rfl

theorem queue_gcode_last_cw (s : GCodeEncoder) (x : String) :
    (queue_gcode s x).last_encoder_cw_eventtime = s.last_encoder_cw_eventtime := by
  rw [queue_gcode_eq]; split
  · rfl
  · split <;> rfl

theorem queue_gcode_last_ccw (s : GCodeEncoder) (x : String) :
    (queue_gcode s x).last_encoder_ccw_eventtime = s.last_encoder_ccw_eventtime := by
  rw [queue_gcode_eq]; split
  · rfl
  · split <;> rfl

theorem key_event_emitted (s : GCodeEncoder) (k : String) (t : ℚ) :
    (key_event s k t).emitted = s.emitted ++ [k] := by
  simp only [key_event]
  repeat' split
  all_goals simp [queue_gcode_emitted]

theorem key_event_click_timer (s : GCodeEncoder) (k : String) (t : ℚ) :
    (key_event s k t).click_timer = s.click_timer := by
  simp only [key_event]
  repeat' split
  all_goals simp [queue_gcode_click_timer]

theorem key_event_is_short_click (s : GCodeEncoder) (k : String) (t : ℚ) :
    (key_event s k t).is_short_click = s.is_short_click := by
  simp only [key_event]
  repeat' split
  all_goals simp [queue_gcode_is_short_click]

theorem key_event_executed (s : GCodeEncoder) (k : String) (t : ℚ) :
    (key_event s k t).executed = s.executed := by
  simp only [key_event]
  repeat' split
  all_goals simp [queue_gcode_executed]

theorem key_event_last_cw (s : GCodeEncoder) (k : String) (t : ℚ) :
    (key_event s k t).last_encoder_cw_eventtime = s.last_encoder_cw_eventtime := by
  simp only [key_event]
  repeat' split
  all_goals simp [queue_gcode_last_cw]

theorem key_event_last_ccw (s : GCodeEncoder) (k : String) (t : ℚ) :
    (key_event s k t).last_encoder_ccw_eventtime = s.last_encoder_ccw_eventtime := by
  simp only [key_event]
  repeat' split
  all_goals simp [queue_gcode_last_ccw]

/-! ## Basic lemmas about the button handlers -/

theorem click_callback_press (s : GCodeEncoder) (t : ℚ) :
    click_callback s t true =
      { s with is_short_click := true,
               click_timer := .wake (t + LONG_CLICK_DURATION) } := rfl

theorem click_callback_release_short (s : GCodeEncoder) (t : ℚ)
    (h : s.is_short_click = true) :
    click_callback s t false = key_event { s with click_timer := .NEVER } "click" t := by
  simp [click_callback, h]

theorem click_callback_release_idle (s : GCodeEncoder) (t : ℚ)
    (h : s.is_short_click = false) :
    click_callback s t false = s := by
  simp [click_callback, h]

theorem long_click_event_emitted (s : GCodeEncoder) (t : ℚ) :
    (long_click_event s t).emitted = s.emitted ++ ["long_click"] := by
  simp [long_click_event, key_event_emitted]

theorem long_click_event_timer (s : GCodeEncoder) (t : ℚ) :
    (long_click_event s t).click_timer = .NEVER := rfl

theorem long_click_event_short (s : GCodeEncoder) (t : ℚ) :
    (long_click_event s t).is_short_click = false := by
  simp [long_click_event, key_event_is_short_click]

/-! ## Unfolding lemmas for the reactor edge semantics -/

theorem runEdges_nil (s : GCodeEncoder) : runEdges [] s = s := rfl

theorem runEdges_cons_never (t : ℚ) (st : Bool) (rest : List (ℚ × Bool))
    (s : GCodeEncoder) (h : s.click_timer = .NEVER) :
    runEdges ((t, st) :: rest) s = runEdges rest (click_callback s t st) := by
  simp [runEdges, h]

theorem runEdges_cons_wake_le (t : ℚ) (st : Bool) (rest : List (ℚ × Bool))
    (s : GCodeEncoder) (u : ℚ) (h : s.click_timer = .wake u) (hle : u ≤ t) :
    runEdges ((t, st) :: rest) s =
      runEdges rest (click_callback (long_click_event s u) t st) := by
  simp [runEdges, h, hle]

theorem runEdges_cons_wake_gt (t : ℚ) (st : Bool) (rest : List (ℚ × Bool))
    (s : GCodeEncoder) (u : ℚ) (h : s.click_timer = .wake u) (hgt : ¬ u ≤ t) :
    runEdges ((t, st) :: rest) s = runEdges rest (click_callback s t st) := by
  simp [runEdges, h, hgt]

/-- A short press/release cycle: press at `t`, release at `t' < t +
LONG_CLICK_DURATION`, starting with no timer armed.  The cycle emits
exactly `click` and leaves the timer at `NEVER`. -/
theorem run_cycle_short (s : GCodeEncoder) (t t' : ℚ)
    (hidle : s.click_timer = .NEVER) (hshort : t' < t + LONG_CLICK_DURATION) :
    (runEdges [(t, true), (t', false)] s).emitted = s.emitted ++ ["click"] ∧
    (runEdges [(t, true), (t', false)] s).click_timer = .NEVER := by
  rw [runEdges_cons_never t true _ s hidle, click_callback_press]
  rw [runEdges_cons_wake_gt t' false [] _ (t + LONG_CLICK_DURATION) rfl
        (by exact not_le.mpr hshort)]
  rw [runEdges_nil, click_callback_release_short _ _ rfl]
  exact ⟨by rw [key_event_emitted], by rw [key_event_click_timer]⟩

/-- A long press cycle: press at `t`, release at `t' ≥ t +
LONG_CLICK_DURATION`, starting with no timer armed.  The timer fires at
`t + LONG_CLICK_DURATION` and emits exactly `long_click`; the eventual
release is ignored. -/
theorem run_cycle_long (s : GCodeEncoder) (t t' : ℚ)
    (hidle : s.click_timer = .NEVER) (hlong : t + LONG_CLICK_DURATION ≤ t') :
    (runEdges [(t, true), (t', false)] s).emitted = s.emitted ++ ["long_click"] ∧
    (runEdges [(t, true), (t', false)] s).click_timer = .NEVER ∧
    (runEdges [(t, true), (t', false)] s).is_short_click = false := by
  rw [runEdges_cons_never t true _ s hidle, click_callback_press]
  rw [runEdges_cons_wake_le t' false [] _ (t + LONG_CLICK_DURATION) rfl hlong]
  rw [runEdges_nil, click_callback_release_idle _ _ (long_click_event_short _ _)]
  refine ⟨?_, long_click_event_timer _ _, long_click_event_short _ _⟩
  rw [long_click_event_emitted]

/-- C1: a press edge at `t` followed by a release edge at `t'` with
`t' - t < LONG_CLICK_DURATION` (so the long-press timer, armed for
`t + LONG_CLICK_DURATION`, has not fired in between) emits exactly one
`click` event and zero `long_click` events, and sets the pending
long-press timer to the never-fire sentinel. -/
theorem claim_C1_short_press_is_click (s : GCodeEncoder) (t t' : ℚ)
    (hidle : s.click_timer = .NEVER) (hord : t ≤ t')
    (hshort : t' - t < LONG_CLICK_DURATION) :
    (runEdges [(t, true), (t', false)] s).emitted = s.emitted ++ ["click"] ∧
    (runEdges [(t, true), (t', false)] s).click_timer = .NEVER := by
  have := hord
  exact run_cycle_short s t t' hidle (by linarith)

/-- Witness for C1: a press at time 0 released at time 1 (duration 1 <
1.5) from the freshly initialized state emits exactly `click` and leaves
the timer cancelled. -/
theorem claim_C1_short_press_is_click_witness :
    (runEdges [((0 : ℚ), true), ((1 : ℚ), false)] (initState emptyScripts (3/100))).emitted
        = (initState emptyScripts (3/100)).emitted ++ ["click"] ∧
    (runEdges [((0 : ℚ), true), ((1 : ℚ), false)] (initState emptyScripts (3/100))).click_timer
        = .NEVER :=
  claim_C1_short_press_is_click (initState emptyScripts (3/100)) 0 1 rfl
    (by norm_num) (by norm_num [LONG_CLICK_DURATION])

/-- C2: a press at `t` with no release before the long-press timer fires
(the release comes at `t' ≥ t + LONG_CLICK_DURATION`) emits exactly one
`long_click` event when the timer fires, the timer returns to the
never-fire sentinel, and the eventual release edge emits zero further
events (the whole cycle's emission is exactly `["long_click"]`). -/
theorem claim_C2_long_press_is_long_click (s : GCodeEncoder) (t t' : ℚ)
    (hidle : s.click_timer = .NEVER) (hlong : t + LONG_CLICK_DURATION ≤ t') :
    (runEdges [(t, true), (t', false)] s).emitted = s.emitted ++ ["long_click"] ∧
    (runEdges [(t, true), (t', false)] s).click_timer = .NEVER ∧
    (runEdges [(t, true), (t', false)] s).is_short_click = false :=
  run_cycle_long s t t' hidle hlong

/-- Witness for C2: a press at time 0 held until a release at time 2
(the timer fires at 1.5) from the freshly initialized state emits exactly
`long_click`. -/
theorem claim_C2_long_press_is_long_click_witness :
    (runEdges [((0 : ℚ), true), ((2 : ℚ), false)] (initState emptyScripts (3/100))).emitted
        = (initState emptyScripts (3/100)).emitted ++ ["long_click"] ∧
    (runEdges [((0 : ℚ), true), ((2 : ℚ), false)] (initState emptyScripts (3/100))).click_timer
        = .NEVER ∧
    (runEdges [((0 : ℚ), true), ((2 : ℚ), false)] (initState emptyScripts (3/100))).is_short_click
        = false :=
  claim_C2_long_press_is_long_click (initState emptyScripts (3/100)) 0 2 rfl
    (by norm_num [LONG_CLICK_DURATION])

/-- C7: at most one terminal event per press/release cycle.  A press with
no subsequent release and no timer firing emits no event at all, and a
full press/release cycle (whatever the release time) emits at most one
event. -/
theorem claim_C7_at_most_one_terminal (s : GCodeEncoder) (t t' : ℚ)
    (hidle : s.click_timer = .NEVER) :
    (runEdges [(t, true)] s).emitted = s.emitted ∧
    ∃ l, (runEdges [(t, true), (t', false)] s).emitted = s.emitted ++ l ∧
         l.length ≤ 1 := by
  constructor
  · rw [runEdges_cons_never t true _ s hidle, click_callback_press, runEdges_nil]
  · rcases le_or_lt (t + LONG_CLICK_DURATION) t' with h | h
    · exact ⟨["long_click"], (run_cycle_long s t t' hidle h).1, by simp⟩
    · exact ⟨["click"], (run_cycle_short s t t' hidle h).1, by simp⟩

/-- Witness for C7: concrete press-only and press/release runs from the
freshly initialized state. -/
theorem claim_C7_at_most_one_terminal_witness :
    (runEdges [((0 : ℚ), true)] (initState emptyScripts (3/100))).emitted
        = (initState emptyScripts (3/100)).emitted ∧
    ∃ l, (runEdges [((0 : ℚ), true), ((1 : ℚ), false)]
            (initState emptyScripts (3/100))).emitted
          = (initState emptyScripts (3/100)).emitted ++ l ∧ l.length ≤ 1 :=
  claim_C7_at_most_one_terminal (initState emptyScripts (3/100)) 0 1 rfl

/-- C10: a release edge arriving while the short-click flag is cleared
(as in the freshly initialized state) emits no event, enqueues nothing,
does not touch the long-press timer, and leaves the whole state
unchanged. -/
theorem claim_C10_stray_release_noop (s : GCodeEncoder) (t : ℚ)
    (h : s.is_short_click = false) :
    click_callback s t false = s ∧
    ∀ sc r, (initState sc r).is_short_click = false :=
  ⟨click_callback_release_idle s t h, fun _ _ => rfl⟩

/-- Witness for C10: a release at time 0 in the freshly initialized state
is a no-op. -/
theorem claim_C10_stray_release_noop_witness :
    click_callback (initState emptyScripts (3/100)) 0 false
        = initState emptyScripts (3/100) ∧
    ∀ sc r, (initState sc r).is_short_click = false :=
  claim_C10_stray_release_noop (initState emptyScripts (3/100)) 0 rfl

/-! ## Lemmas about the dispatch queue -/

theorem dispatch_go_executed (ro : String → Bool) (re : String → String)
    (q : List String) : ∀ s : GCodeEncoder,
    (dispatch_go ro re q s).executed = s.executed ++ q.map re := by
  induction q with
  | nil => intro s; simp [dispatch_go]
  | cons x xs ih => intro s; simp [dispatch_go, ih]

theorem dispatch_go_logged (ro : String → Bool) (re : String → String)
    (q : List String) : ∀ s : GCodeEncoder,
    (dispatch_go ro re q s).logged
      = s.logged + (q.map re).countP (fun r => ! ro r) := by
  induction q with
  | nil => intro s; simp [dispatch_go]
  | cons x xs ih =>
    intro s
    simp only [dispatch_go, ih, List.map_cons, List.countP_cons]
    cases h : ro (re x) <;> simp [h] <;> omega

theorem dispatch_go_gcode_queue (ro : String → Bool) (re : String → String)
    (q : List String) : ∀ s : GCodeEncoder, s.gcode_queue = q →
    (dispatch_go ro re q s).gcode_queue = [] := by
  induction q with
  | nil => intro s h; simpa [dispatch_go] using h
  | cons x xs ih => intro s _; exact ih _ rfl

theorem dispatch_go_frame (ro : String → Bool) (re : String → String)
    (q : List String) : ∀ s : GCodeEncoder,
    (dispatch_go ro re q s).drain_pending = s.drain_pending ∧
    (dispatch_go ro re q s).sched_calls = s.sched_calls ∧
    (dispatch_go ro re q s).emitted = s.emitted ∧
    (dispatch_go ro re q s).click_timer = s.click_timer ∧
    (dispatch_go ro re q s).is_short_click = s.is_short_click := by
  induction q with
  | nil => intro s; simp [dispatch_go]
  | cons x xs ih => intro s; simpa [dispatch_go] using ih _

/-- Full characterization of one drain-task run. -/
theorem dispatch_gcode_spec (ro : String → Bool) (re : String → String)
    (s : GCodeEncoder) :
    (dispatch_gcode ro re s).executed = s.executed ++ s.gcode_queue.map re ∧
    (dispatch_gcode ro re s).gcode_queue = [] ∧
    (dispatch_gcode ro re s).drain_pending = false ∧
    (dispatch_gcode ro re s).sched_calls = s.sched_calls ∧
    (dispatch_gcode ro re s).emitted = s.emitted ∧
    (dispatch_gcode ro re s).logged
      = s.logged + (s.gcode_queue.map re).countP (fun r => ! ro r) := by
  unfold dispatch_gcode
  obtain ⟨h1, h2, h3, _, _⟩ := dispatch_go_frame ro re s.gcode_queue
    { s with drain_pending := false }
  exact ⟨dispatch_go_executed ro re _ _,
         dispatch_go_gcode_queue ro re _ _ rfl,
         h1, h2, h3,
         dispatch_go_logged ro re _ _⟩

theorem enqueueAll_nonempty_queue (xs : List String) : ∀ s : GCodeEncoder,
    s.gcode_queue ≠ [] → (∀ x ∈ xs, x ≠ "") →
    enqueueAll s xs = { s with gcode_queue := s.gcode_queue ++ xs } := by
  induction xs with
  | nil => intro s _ _; simp [enqueueAll]
  | cons x xs ih =>
    intro s hq hx
    have hx0 : x ≠ "" := hx x (by simp)
    rw [enqueueAll, queue_gcode_eq, if_neg hx0, if_neg hq,
        ih _ (by simp) (fun y hy => hx y (by simp [hy]))]
    simp

/-- Enqueuing a nonempty batch of non-empty scripts on an empty queue:
the first call schedules the single drain task and every call appends. -/
theorem enqueueAll_from_empty (s : GCodeEncoder) (scripts : List String)
    (hq : s.gcode_queue = []) (hne : scripts ≠ [])
    (hgood : ∀ x ∈ scripts, x ≠ "") :
    enqueueAll s scripts =
      { s with gcode_queue := scripts, sched_calls := s.sched_calls + 1,
               drain_pending := true } := by
  obtain ⟨x, xs, rfl⟩ := List.exists_cons_of_ne_nil hne
  have hx0 : x ≠ "" := hgood x (by simp)
  rw [enqueueAll, queue_gcode_eq, if_neg hx0, if_pos hq]
  rw [enqueueAll_nonempty_queue xs _ (by simp) (fun y hy => hgood y (by simp [hy]))]
  simp [hq]

/-- C4: enqueuing `N ≥ 1` non-empty scripts starting from an empty queue
with no drain task pending schedules exactly one drain task (only the
first enqueue, which found the queue empty, schedules it; `sched_calls`
grows by exactly 1), and the drain task then renders and executes all `N`
scripts in enqueue order, pops each, and stops with an empty queue and no
task remaining scheduled. -/
theorem claim_C4_single_drain_fifo (s : GCodeEncoder) (scripts : List String)
    (ro : String → Bool) (re : String → String)
    (hq : s.gcode_queue = []) (hp : s.drain_pending = false)
    (hne : scripts ≠ []) (hgood : ∀ x ∈ scripts, x ≠ "") :
    enqueueAll s scripts =
      { s with gcode_queue := scripts, sched_calls := s.sched_calls + 1,
               drain_pending := true } ∧
    (dispatch_gcode ro re (enqueueAll s scripts)).executed
        = s.executed ++ scripts.map re ∧
    (dispatch_gcode ro re (enqueueAll s scripts)).gcode_queue = [] ∧
    (dispatch_gcode ro re (enqueueAll s scripts)).drain_pending = false ∧
    (dispatch_gcode ro re (enqueueAll s scripts)).sched_calls
        = s.sched_calls + 1 := by
  have he := enqueueAll_from_empty s scripts hq hne hgood
  obtain ⟨d1, d2, d3, d4, _, _⟩ := dispatch_gcode_spec ro re (enqueueAll s scripts)
  refine ⟨he, ?_, d2, d3, ?_⟩
  · rw [d1, he]
  · rw [d4, he]

/-- Witness for C4: two scripts enqueued on the fresh empty queue. -/
theorem claim_C4_single_drain_fifo_witness :
    enqueueAll (initState emptyScripts (3/100)) ["M1", "M2"] =
      { initState emptyScripts (3/100) with
          gcode_queue := ["M1", "M2"],
          sched_calls := (initState emptyScripts (3/100)).sched_calls + 1,
          drain_pending := true } ∧
    (dispatch_gcode (fun _ => true) id
        (enqueueAll (initState emptyScripts (3/100)) ["M1", "M2"])).executed
      = (initState emptyScripts (3/100)).executed ++ ["M1", "M2"].map id ∧
    (dispatch_gcode (fun _ => true) id
        (enqueueAll (initState emptyScripts (3/100)) ["M1", "M2"])).gcode_queue = [] ∧
    (dispatch_gcode (fun _ => true) id
        (enqueueAll (initState emptyScripts (3/100)) ["M1", "M2"])).drain_pending = false ∧
    (dispatch_gcode (fun _ => true) id
        (enqueueAll (initState emptyScripts (3/100)) ["M1", "M2"])).sched_calls
      = (initState emptyScripts (3/100)).sched_calls + 1 :=
  claim_C4_single_drain_fifo (initState emptyScripts (3/100)) ["M1", "M2"]
    (fun _ => true) id rfl rfl (by simp) (by decide)

/-- C5: if executing one queued script fails, the drain loop catches the
exception (at least one `logging.exception` call is recorded), still pops
the failing entry, still renders and executes every script in the queue
(including all those enqueued after the failing one) in order, and
returns normally: it is a total function into plain states, so nothing
propagates to enqueue callers or to the event-producing callbacks (no
event is emitted and no callback scheduled by the drain). -/
theorem claim_C5_failure_skip_continue (s : GCodeEncoder) (ro : String → Bool)
    (re : String → String) (a b : List String) (bad : String)
    (hq : s.gcode_queue = a ++ bad :: b) (hbad : ro (re bad) = false) :
    (dispatch_gcode ro re s).executed = s.executed ++ (a ++ bad :: b).map re ∧
    (dispatch_gcode ro re s).gcode_queue = [] ∧
    s.logged + 1 ≤ (dispatch_gcode ro re s).logged ∧
    (dispatch_gcode ro re s).emitted = s.emitted ∧
    (dispatch_gcode ro re s).sched_calls = s.sched_calls := by
  obtain ⟨d1, d2, _, d4, d5, d6⟩ := dispatch_gcode_spec ro re s
  refine ⟨by rw [d1, hq], d2, ?_, d5, d4⟩
  rw [d6, hq]
  have hpos : 0 < ((a ++ bad :: b).map re).countP (fun r => ! ro r) := by
    rw [List.countP_pos_iff]
    exact ⟨re bad, by simp, by simp [hbad]⟩
  omega

/-- Witness for C5: a queue `["A", "BAD", "B"]` where running `"BAD"`
fails; all three scripts are still executed in order. -/
theorem claim_C5_failure_skip_continue_witness :
    (dispatch_gcode (fun r => ! (r == "BAD")) id
        { initState emptyScripts (3/100) with gcode_queue := ["A", "BAD", "B"] }).executed
      = { initState emptyScripts (3/100) with
            gcode_queue := ["A", "BAD", "B"] }.executed
          ++ (["A"] ++ "BAD" :: ["B"]).map id ∧
    (dispatch_gcode (fun r => ! (r == "BAD")) id
        { initState emptyScripts (3/100) with gcode_queue := ["A", "BAD", "B"] }).gcode_queue
      = [] ∧
    { initState emptyScripts (3/100) with
        gcode_queue := ["A", "BAD", "B"] }.logged + 1
      ≤ (dispatch_gcode (fun r => ! (r == "BAD")) id
          { initState emptyScripts (3/100) with gcode_queue := ["A", "BAD", "B"] }).logged ∧
    (dispatch_gcode (fun r => ! (r == "BAD")) id
        { initState emptyScripts (3/100) with gcode_queue := ["A", "BAD", "B"] }).emitted
      = { initState emptyScripts (3/100) with
            gcode_queue := ["A", "BAD", "B"] }.emitted ∧
    (dispatch_gcode (fun r => ! (r == "BAD")) id
        { initState emptyScripts (3/100) with gcode_queue := ["A", "BAD", "B"] }).sched_calls
      = { initState emptyScripts (3/100) with
            gcode_queue := ["A", "BAD", "B"] }.sched_calls :=
  claim_C5_failure_skip_continue
    { initState emptyScripts (3/100) with gcode_queue := ["A", "BAD", "B"] }
    (fun r => ! (r == "BAD")) id ["A"] ["B"] "BAD" rfl (by decide)

/-- C6: dispatching an event whose configured script template is empty is
a no-op apart from the `key_event` log entry: nothing is appended to the
queue, no drain task is scheduled, and no execute call is made. -/
theorem claim_C6_empty_template_noop (s : GCodeEncoder) (k : String) (t : ℚ)
    (hk : k ∈ eventKeys) (he : s.scripts.get k = some "") :
    key_event s k t = { s with emitted := s.emitted ++ [k] } := by
  fin_cases hk <;>
    simp only [Scripts.get, if_pos, if_neg, Option.some.injEq,
      String.reduceEq, ite_false, ite_true] at he <;>
    simp [key_event, queue_gcode_eq, he]

/-- Witness for C6: a `click` with an empty `click_gcode` template only
logs the event. -/
theorem claim_C6_empty_template_noop_witness :
    key_event (initState emptyScripts (3/100)) "click" 0
      = { initState emptyScripts (3/100) with
            emitted := (initState emptyScripts (3/100)).emitted ++ ["click"] } :=
  claim_C6_empty_template_noop (initState emptyScripts (3/100)) "click" 0
    (by simp [eventKeys]) rfl

/-- C3: a decoded encoder event at `t` is classified fast exactly when
`t - lastTimestamp[direction] ≤ encoder_fast_rate`; the direction's last
timestamp is updated to `t` unconditionally, the other direction's
timestamp is untouched, and both timestamps start at 0. -/
theorem claim_C3_rate_detector (s : GCodeEncoder) (t : ℚ) :
    (encoder_cw_callback s t).emitted = s.emitted ++
      [if t - s.last_encoder_cw_eventtime ≤ s.encoder_fast_rate
       then "fast_up" else "up"] ∧
    (encoder_cw_callback s t).last_encoder_cw_eventtime = t ∧
    (encoder_cw_callback s t).last_encoder_ccw_eventtime
        = s.last_encoder_ccw_eventtime ∧
    (encoder_ccw_callback s t).emitted = s.emitted ++
      [if t - s.last_encoder_ccw_eventtime ≤ s.encoder_fast_rate
       then "fast_down" else "down"] ∧
    (encoder_ccw_callback s t).last_encoder_ccw_eventtime = t ∧
    (encoder_ccw_callback s t).last_encoder_cw_eventtime
        = s.last_encoder_cw_eventtime ∧
    ∀ sc r, (initState sc r).last_encoder_cw_eventtime = 0 ∧
            (initState sc r).last_encoder_ccw_eventtime = 0 := by
  refine ⟨?_, ?_, ?_, ?_, ?_, ?_, fun _ _ => ⟨rfl, rfl⟩⟩ <;>
    simp only [encoder_cw_callback, encoder_ccw_callback] <;>
    split <;>
    simp [key_event_emitted, key_event_last_cw, key_event_last_ccw]

/-! ## Emission bounds over arbitrary live runs -/

theorem encoder_cw_callback_emitted (s : GCodeEncoder) (t : ℚ) :
    (encoder_cw_callback s t).emitted = s.emitted ++
      [if t - s.last_encoder_cw_eventtime ≤ s.encoder_fast_rate
       then "fast_up" else "up"] := by
  simp only [encoder_cw_callback]
  split <;> simp [key_event_emitted]

theorem encoder_ccw_callback_emitted (s : GCodeEncoder) (t : ℚ) :
    (encoder_ccw_callback s t).emitted = s.emitted ++
      [if t - s.last_encoder_ccw_eventtime ≤ s.encoder_fast_rate
       then "fast_down" else "down"] := by
  simp only [encoder_ccw_callback]
  split <;> simp [key_event_emitted]

/-- Every live entry point extends the `key_event` log only with keys from
`liveKeys`; in particular `double_click` and `release` are never
dispatched. -/
theorem stepInv_emitted (ro : String → Bool) (re : String → String)
    (s : GCodeEncoder) (i : Invocation) :
    ∃ l, (stepInv ro re s i).emitted = s.emitted ++ l ∧
         ∀ k ∈ l, k ∈ liveKeys := by
  cases i with
  | cw t =>
    refine ⟨_, encoder_cw_callback_emitted s t, ?_⟩
    split <;> simp [liveKeys]
  | ccw t =>
    refine ⟨_, encoder_ccw_callback_emitted s t, ?_⟩
    split <;> simp [liveKeys]
  | button t st =>
    cases st with
    | true => exact ⟨[], by rw [stepInv, click_callback_press]; simp, by simp⟩
    | false =>
      by_cases h : s.is_short_click = true
      · refine ⟨["click"], ?_, by simp [liveKeys]⟩
        rw [stepInv, click_callback_release_short s t h, key_event_emitted]
      · refine ⟨[], ?_, by simp⟩
        rw [stepInv, click_callback_release_idle s t (by simpa using h)]
        simp
  | fire t => exact ⟨["long_click"], long_click_event_emitted s t, by simp [liveKeys]⟩
  | drain => exact ⟨[], by simp [stepInv, (dispatch_gcode_spec ro re s).2.2.2.2.1], by simp⟩

theorem runInv_emitted (ro : String → Bool) (re : String → String)
    (invs : List Invocation) : ∀ (s : GCodeEncoder) (k : String),
    k ∈ (runInv ro re invs s).emitted → k ∈ s.emitted ∨ k ∈ liveKeys := by
  induction invs with
  | nil => intro s k hk; exact Or.inl hk
  | cons i rest ih =>
    intro s k hk
    rcases ih (stepInv ro re s i) k hk with h | h
    · obtain ⟨l, hl, hmem⟩ := stepInv_emitted ro re s i
      rw [hl, List.mem_append] at h
      rcases h with h | h
      · exact Or.inl h
      · exact Or.inr (hmem k h)
    · exact Or.inr h

/-- C9: over every sequence of live driver callbacks, timer firings and
drain runs from the initial state, the event dispatcher is never invoked
with `double_click` or `release` (or the internal table key
`release_template`), and `key_event` has no branch for a `release` event:
dispatching `release` only logs the call and queues nothing. -/
theorem claim_C9_unreachable_templates (ro : String → Bool)
    (re : String → String) (invs : List Invocation) (sc : Scripts) (r : ℚ)
    (k : String)
    (hk : k ∈ (runInv ro re invs (initState sc r)).emitted) :
    (k ≠ "double_click" ∧ k ≠ "release" ∧ k ≠ "release_template") ∧
    ∀ (s : GCodeEncoder) (t : ℚ),
      key_event s "release" t = { s with emitted := s.emitted ++ ["release"] } := by
  constructor
  · rcases runInv_emitted ro re invs (initState sc r) k hk with h | h
    · simp [initState] at h
    · fin_cases h <;> simp
  · intro s t
    simp [key_event]

/-- Witness for C9: the timer firing at time 0 emits `long_click`, which
is neither `double_click` nor `release`. -/
theorem claim_C9_unreachable_templates_witness :
    (("long_click" ≠ "double_click" ∧ "long_click" ≠ "release" ∧
      "long_click" ≠ "release_template") ∧
    ∀ (s : GCodeEncoder) (t : ℚ),
      key_event s "release" t = { s with emitted := s.emitted ++ ["release"] }) :=
  claim_C9_unreachable_templates (fun _ => true) id [Invocation.fire 0]
    emptyScripts (3/100) "long_click"
    (by simp [runInv, stepInv, long_click_event_emitted])

/-- C8: a present `encoder_pins` value that does not split on commas into
exactly two tokens makes initialization fail fast with a configuration
error; with exactly two tokens initialization succeeds and registers the
encoder with the two stripped pin names. -/
theorem claim_C8_encoder_pins (ep : String) :
    ((pySplitComma ep).length ≠ 2 →
      init_encoder_pins (some ep) = .error "Unable to parse encoder_pins") ∧
    (∀ p1 p2, pySplitComma ep = [p1, p2] →
      init_encoder_pins (some ep)
        = .ok (some (String.mk (pyStrip p1.data), String.mk (pyStrip p2.data)))) := by
  constructor
  · intro h
    simp only [init_encoder_pins]
    split
    · rename_i p1 p2 heq
      exact absurd (by rw [heq]; rfl) h
    · rfl
  · intro p1 p2 h
    simp only [init_encoder_pins]
    split
    · rename_i q1 q2 heq
      rw [h] at heq
      cases heq
      rfl
    · rename_i hnone
      exact absurd h (hnone p1 p2)

/-- Witness for C8: `"PA1, PA2"` parses into the stripped pins
`("PA1", "PA2")`, while the one-token `"PA1"` fails with the
configuration error. -/
theorem claim_C8_encoder_pins_witness :
    init_encoder_pins (some "PA1, PA2") = .ok (some ("PA1", "PA2")) ∧
    init_encoder_pins (some "PA1") = .error "Unable to parse encoder_pins" :=
  ⟨by
    have h := (claim_C8_encoder_pins "PA1, PA2").2 "PA1" " PA2" rfl
    simpa using h,
   (claim_C8_encoder_pins "PA1").1 (by decide)⟩

end GcodeEnc
